import Mathlib

/-
  Formal model of the oFono connection-manager (gprs) core and of its AT-modem
  dialect layer, as implemented in src/src/gprs.c and src/drivers/atmodem/gprs.c,
  with theorems about the attach state machine, the suspend handling, the
  per-context property handling, the settings round-trip, the id allocation and
  the vendor dialect translation tables.
-/

set_option maxRecDepth 4000

namespace Ofono

/-- Context types (enum ofono_gprs_context_type of the public gprs header; the
set of constructors follows the switches in src/src/gprs.c:153-219). -/
inductive CtxType
  | any | internet | mms | wap | ims | supl | ia
deriving DecidableEq

/-- Translation of gprs_context_type_to_string (src/src/gprs.c:175-196).
ANY has no string form (the C function returns NULL). -/
def gprs_context_type_to_string : CtxType → Option String
  | .any => none
  | .internet => some "internet"
  | .mms => some "mms"
  | .wap => some "wap"
  | .ims => some "ims"
  | .supl => some "supl"
  | .ia => some "ia"

/-- Translation of gprs_context_string_to_type (src/src/gprs.c:198-219):
a chain of string comparisons accepting exactly internet, wap, mms, ims and
supl; every other string (including "ia") is rejected. -/
def gprs_context_string_to_type (str : String) : Option CtxType :=
  if str = "internet" then some .internet
  else if str = "wap" then some .wap
  else if str = "mms" then some .mms
  else if str = "ims" then some .ims
  else if str = "supl" then some .supl
  else none

/-- Translation of gprs_context_default_name (src/src/gprs.c:153-173). -/
def gprs_context_default_name : CtxType → Option String
  | .any => none
  | .internet => some "Internet"
  | .mms => some "MMS"
  | .wap => some "WAP"
  | .ims => some "IMS"
  | .supl => some "SUPL"
  | .ia => some "Initial Attach"

/-- Error kinds of the remote-object interface (section 7 of the design). -/
inductive ErrKind
  | invalidArgs | invalidFormat | notFound | notAttachedErr | attachInProgressErr
  | busyErr | inUseErr | notAllowed | notImplemented | failedErr

/-- Translation of the argument-parsing head of gprs_add_context
(src/src/gprs.c:2118-2141) for a well-formed message carrying the type string:
rejects with invalid-format when the string does not parse as a context type;
otherwise the created context gets the default name of the type, or the type
string itself when there is no default. -/
def gprs_add_context_parse (typestr : String) : Except ErrKind (String × CtxType) :=
  match gprs_context_string_to_type typestr with
  | none => .error .invalidFormat
  | some t => .ok ((gprs_context_default_name t).getD typestr, t)

/-! Vendor dialect layer: bearer translation tables of src/drivers/atmodem/gprs.c.
The numeric bearer codes are the PACKET_BEARER constants of src/common.h (not
among the sources); the values are modelled from the order of the switch in
packet_bearer_to_string (src/src/gprs.c:130-151) and the driver comments:
0 none, 1 gprs, 2 edge, 3 umts, 4 hsupa, 5 hsdpa, 6 hspa, 7 lte. -/

/-- Translation of the submode switch of huawei_mode_notify
(src/drivers/atmodem/gprs.c:447-471). -/
def huawei_mode_to_bearer (submode : Int) : Int :=
  if submode = 1 ∨ submode = 2 then 1
  else if submode = 3 then 2
  else if submode = 4 then 3
  else if submode = 5 then 5
  else if submode = 6 then 4
  else if submode = 7 ∨ submode = 9 then 6
  else 0

/-- Translation of the network-type switch of telit_mode_notify
(src/drivers/atmodem/gprs.c:510-529). -/
def telit_psnt_to_bearer (nt : Int) : Int :=
  if nt = 0 then 1
  else if nt = 1 then 2
  else if nt = 2 then 3
  else if nt = 3 then 5
  else if nt = 4 then 7
  else 0

/-- Translation of the status switch of simcom_mode_notify
(src/drivers/atmodem/gprs.c:548-577), written with the PACKET_BEARER constants. -/
def simcom_cnsmod_to_bearer (stat : Int) : Int :=
  if stat = 0 then 0
  else if stat = 1 ∨ stat = 2 then 1
  else if stat = 3 then 2
  else if stat = 4 then 3
  else if stat = 5 then 5
  else if stat = 6 then 4
  else if stat = 7 then 6
  else if stat = 8 then 7
  else 0

/-- Translation of the state switch of ublox_ureg_notify
(src/drivers/atmodem/gprs.c:596-611): only 4, 5, 8 and 9 are remapped; the
default branch passes the state through as the bearer value. -/
def ublox_ureg_to_bearer (state : Int) : Int :=
  if state = 4 then 5
  else if state = 5 then 4
  else if state = 8 then 1
  else if state = 9 then 2
  else state

/-- Suspend causes (GPRS_SUSPENDED constants of src/common.h, mirrored from the
cause list in ofono_gprs_suspend_notify, src/src/gprs.c:1488-1506). -/
inductive SuspendCause
  | detachedCause | callCause | noCoverage | signalling | unknownCause

/-- Observable effects emitted by a dialect notification handler. -/
inductive DialectAct
  | suspendNotify (cause : SuspendCause)
  | resumeNotify
  | statusNotify (status : Int)
  | detachedNotify
  | sendCmd (cmd : String)

/-- Translation of xdatastat_notify (src/drivers/atmodem/gprs.c:404-427). In the
source, the statement "if (!g_at_result_iter_next_number(&iter, &stat))" guards
only the DBG statement that follows it; the switch on stat runs even when the
read failed, on whatever residual value the uninitialised variable happens to
hold (the residual parameter). A line without the expected prefix returns
early. -/
def xdatastat_notify (prefixOk : Bool) (field : Option Int) (residual : Int) :
    List DialectAct :=
  if !prefixOk then []
  else
    let stat := field.getD residual
    if stat = 0 then [.suspendNotify .unknownCause]
    else if stat = 1 then [.resumeNotify]
    else []

/-- Dialect-layer state of the AT gprs driver (struct gprs_data of
src/drivers/atmodem/gprs.c:41-47), restricted to the fields the notification
handlers read: the vendor selector, the attached flag and the Telit re-attach
latch. -/
structure AtGprsData where
  vendorTelit : Bool
  attached : Bool
  telitTryReattach : Bool

/-- Translation of cgreg_notify (src/drivers/atmodem/gprs.c:331-364) for a
successfully parsed unsolicited registration status. For the Telit vendor, a
status 0 arriving while attached and with the latch clear sets the latch and
sends a single silent AT+CGATT=1 instead of forwarding the status; otherwise
the latch is cleared and the status is forwarded to the core. -/
def cgreg_notify (gd : AtGprsData) (status : Int) : AtGprsData × List DialectAct :=
  if gd.vendorTelit then
    if gd.attached ∧ status = 0 ∧ ¬gd.telitTryReattach then
      ({ gd with telitTryReattach := true }, [.sendCmd "AT+CGATT=1"])
    else
      ({ gd with telitTryReattach := false }, [.statusNotify status])
  else (gd, [.statusNotify status])

/-- Translation of the detach branch of cgev_notify
(src/drivers/atmodem/gprs.c:381-389): on "NW DETACH" or "ME DETACH", a Telit
modem with the re-attach latch set swallows the event; otherwise the attached
flag is cleared and the detach is reported to the core. -/
def cgev_notify_detach (gd : AtGprsData) : AtGprsData × List DialectAct :=
  if gd.vendorTelit ∧ gd.telitTryReattach then (gd, [])
  else ({ gd with attached := false }, [.detachedNotify])

/-- Translation of at_gprs_set_attached (src/drivers/atmodem/gprs.c:101-119)
for a successful send: records the requested state and issues AT+CGATT. -/
def at_gprs_set_attached (gd : AtGprsData) (attached : Bool) :
    AtGprsData × List DialectAct :=
  ({ gd with attached := attached },
   [.sendCmd (if attached then "AT+CGATT=1" else "AT+CGATT=0")])

/-! Connection Manager attach and suspend state machine (src/src/gprs.c).
The NETWORK_REGISTRATION_STATUS constants live in src/common.h, which is not
among the sources; the values are modelled from the RegStatus enumeration of
the design (section 3) in the 3GPP order used throughout the source:
0 not-registered, 1 registered, 2 searching, 3 denied, 4 unknown, 5 roaming,
6 registered-sms-eutran, 7 roaming-sms-eutran. -/

def NETREG_NOT_REGISTERED : Int := 0
def NETREG_REGISTERED : Int := 1
def NETREG_SEARCHING : Int := 2
def NETREG_DENIED : Int := 3
def NETREG_UNKNOWN : Int := 4
def NETREG_ROAMING : Int := 5
def NETREG_REGISTERED_SMS_EUTRAN : Int := 6
def NETREG_ROAMING_SMS_EUTRAN : Int := 7

/-- Observable effects of a manager transition: driver calls and signals. -/
inductive MgrAct
  | setAttachedReq (attached : Bool)
  | detachShutdownReq (cid : Nat)
  | propertyChanged (name : String)
  | ctxActiveChanged (id : Nat)

/-- Per-context slice of manager state used by the attach machine (struct
pri_context together with its bound struct ofono_gprs_context,
src/src/gprs.c:98-124): the path id, the modem cid, the Active flag, an
outstanding per-context request, whether a driver binding is attached and
whether that binding's driver offers detach_shutdown. -/
structure MgrCtx where
  id : Nat
  cid : Nat
  active : Bool
  pending : Bool
  hasDriver : Bool
  hasDetachShutdown : Bool

/-- Manager state (struct ofono_gprs, src/src/gprs.c:49-75), restricted to the
fields the attach and suspend machinery reads and writes. The three GPRS_FLAG
bits are split into the attaching, recheck and attachedUpdate booleans. The
access technology reported by the netreg atom and the presence of a
read_settings-capable context driver (the two inputs of on_lte,
src/src/gprs.c:1605-1612) are carried as state fields. -/
structure Gprs where
  attached : Bool
  driverAttached : Bool
  roamingAllowed : Bool
  powered : Bool
  suspended : Bool
  status : Int
  netregStatus : Int
  attaching : Bool
  recheck : Bool
  attachedUpdate : Bool
  bearer : Int
  suspendTimeoutArmed : Bool
  techEutran : Bool
  haveReadSettings : Bool
  contexts : List MgrCtx

/-- Manager state as built by the gprs atom constructor
(src/src/gprs.c:3081-3086): a zeroed allocation with status forced to unknown
and the netreg status to the not-yet-observed marker -1. -/
def gprsInit : Gprs :=
  { attached := false, driverAttached := false, roamingAllowed := false
  , powered := false, suspended := false, status := NETREG_UNKNOWN
  , netregStatus := -1, attaching := false, recheck := false
  , attachedUpdate := false, bearer := 0, suspendTimeoutArmed := false
  , techEutran := false, haveReadSettings := false, contexts := [] }

/-- Translation of on_lte (src/src/gprs.c:1605-1612). -/
def on_lte (g : Gprs) : Bool := g.techEutran && g.haveReadSettings

/-- Translation of have_active_contexts (src/src/gprs.c:1513-1526). -/
def have_active_contexts (g : Gprs) : Bool := g.contexts.any (·.active)

/-- Translation of have_detachable_active_contexts (src/src/gprs.c:1528-1547):
a context counts when it is bound to a driver offering detach_shutdown and is
active. -/
def have_detachable_active_contexts (g : Gprs) : Bool :=
  g.contexts.any (fun c => c.hasDriver && c.hasDetachShutdown && c.active)

/-- One iteration of the loop of detach_active_contexts
(src/src/gprs.c:1576-1603): an active context without an outstanding request
gets a detach_shutdown call when its driver offers one, is released and its
Active change signalled; the signals of pri_reset_context_settings are not
modelled. -/
def detach_one (c : MgrCtx) : MgrCtx × List MgrAct :=
  if c.active && !c.pending then
    ({ c with active := false, cid := 0, hasDriver := false
            , hasDetachShutdown := false },
     (if c.hasDetachShutdown then [.detachShutdownReq c.cid] else []) ++
       [.ctxActiveChanged c.id])
  else (c, [])

/-- Translation of detach_active_contexts (src/src/gprs.c:1576-1603). -/
def detach_active_contexts (g : Gprs) : Gprs × List MgrAct :=
  ({ g with contexts := g.contexts.map (fun c => (detach_one c).1) },
   (g.contexts.map (fun c => (detach_one c).2)).flatten)

/-- Translation of gprs_set_attached_property (src/src/gprs.c:897-913). -/
def gprs_set_attached_property (g : Gprs) (attached : Bool) :
    Gprs × List MgrAct :=
  if g.attached = attached then (g, [])
  else ({ g with attached := attached }, [.propertyChanged "Attached"])

/-- The L_IN_SET test of gprs_attached_update and ofono_gprs_status_notify
(src/src/gprs.c:1630-1634 and 2642-2645): the four packet registration states
in which the service is usable. -/
def statusAttachable (status : Int) : Bool :=
  decide (status = NETREG_REGISTERED ∨ status = NETREG_REGISTERED_SMS_EUTRAN ∨
    status = NETREG_ROAMING ∨ status = NETREG_ROAMING_SMS_EUTRAN)

/-- Translation of gprs_attached_update (src/src/gprs.c:1614-1666): recompute
the public attached flag; when it changes while detachable active contexts
remain off LTE, detach them first and, when going attached, defer the property
transition behind the ATTACHED_UPDATE flag. Going detached resets the bearer. -/
def gprs_attached_update (g : Gprs) : Gprs × List MgrAct :=
  let attached := if on_lte g then have_active_contexts g
                  else g.driverAttached && statusAttachable g.status
  if attached = g.attached then (g, [])
  else if have_detachable_active_contexts g && !(on_lte g) then
    let step := detach_active_contexts g
    if attached then ({ step.1 with attachedUpdate := true }, step.2)
    else
      let g2 := { step.1 with bearer := -1 }
      let fin := gprs_set_attached_property g2 attached
      (fin.1, step.2 ++ fin.2)
  else
    let g2 := if attached = false then { g with bearer := -1 } else g
    gprs_set_attached_property g2 attached

/-- Translation of gprs_netreg_update (src/src/gprs.c:1723-1771): returns the
new manager state and the driver calls issued. -/
def gprs_netreg_update (g : Gprs) : Gprs × List MgrAct :=
  if g.netregStatus < 0 then (g, [])
  else
    let attach := decide (g.netregStatus = NETREG_REGISTERED) ||
      decide (g.netregStatus = NETREG_REGISTERED_SMS_EUTRAN)
    let attach := attach || (g.roamingAllowed &&
      (decide (g.netregStatus = NETREG_ROAMING) ||
       decide (g.netregStatus = NETREG_ROAMING_SMS_EUTRAN)))
    let attach := attach && g.powered
    if on_lte g then gprs_attached_update g
    else if g.driverAttached = attach then (g, [])
    else if g.attaching then ({ g with recheck := true }, [])
    else ({ g with attaching := true, driverAttached := attach },
          [.setAttachedReq attach])

/-- Translation of ofono_gprs_detached_notify (src/src/gprs.c:2604-2625). -/
def ofono_gprs_detached_notify (g : Gprs) : Gprs × List MgrAct :=
  if g.attaching then (g, [])
  else gprs_attached_update { g with driverAttached := false }

/-- Translation of ofono_gprs_status_notify (src/src/gprs.c:2627-2666). -/
def ofono_gprs_status_notify (g : Gprs) (status : Int) : Gprs × List MgrAct :=
  let g := { g with status := status }
  if g.attaching then (g, [])
  else if !statusAttachable status then ofono_gprs_detached_notify g
  else if !g.powered then ({ g with attaching := true }, [.setAttachedReq false])
  else if !g.roamingAllowed && decide (status = NETREG_ROAMING) then
    ({ g with attaching := true }, [.setAttachedReq false])
  else gprs_attached_update { g with driverAttached := true }

/-- State and actions of registration_status_cb (src/src/gprs.c:1668-1687)
right before the RECHECK test: the ATTACHING flag has been cleared and the
status fed to ofono_gprs_status_notify (on success) or gprs_attached_update
(on error). -/
def registration_status_cb_mid (g : Gprs) (ok : Bool) (status : Int) :
    Gprs × List MgrAct :=
  if ok then ofono_gprs_status_notify { g with attaching := false } status
  else gprs_attached_update { g with attaching := false }

/-- Translation of registration_status_cb (src/src/gprs.c:1668-1687): after the
mid phase, a raised RECHECK flag is cleared and gprs_netreg_update re-entered. -/
def registration_status_cb (g : Gprs) (ok : Bool) (status : Int) :
    Gprs × List MgrAct :=
  let mid := registration_status_cb_mid g ok status
  if mid.1.recheck then
    let upd := gprs_netreg_update { mid.1 with recheck := false }
    (upd.1, mid.2 ++ upd.2)
  else mid

/-- Translation of update_suspended_property (src/src/gprs.c:1453-1477): the
pending debounce timer is cancelled, the suspended flag is updated, and the
property change is signalled only when the manager is attached. -/
def update_suspended_property (g : Gprs) (suspended : Bool) :
    Gprs × List MgrAct :=
  let g := { g with suspendTimeoutArmed := false }
  if g.suspended = suspended then (g, [])
  else
    let g := { g with suspended := suspended }
    if g.attached then (g, [.propertyChanged "Suspended"]) else (g, [])

/-- Translation of suspend_timeout (src/src/gprs.c:1479-1486): the debounce
timer firing suspends the service. -/
def suspend_timeout_fire (g : Gprs) : Gprs × List MgrAct :=
  update_suspended_property { g with suspendTimeoutArmed := false } true

/-- Translation of ofono_gprs_suspend_notify (src/src/gprs.c:1488-1506):
definite causes suspend immediately; ambiguous causes arm (or re-arm) the 8 s
debounce timer. -/
def ofono_gprs_suspend_notify (g : Gprs) (cause : SuspendCause) :
    Gprs × List MgrAct :=
  match cause with
  | .detachedCause | .callCause | .noCoverage => update_suspended_property g true
  | .signalling | .unknownCause => ({ g with suspendTimeoutArmed := true }, [])

/-- Translation of ofono_gprs_resume_notify (src/src/gprs.c:1508-1511). -/
def ofono_gprs_resume_notify (g : Gprs) : Gprs × List MgrAct :=
  update_suspended_property g false

/-- Keys of the dictionary built by gprs_get_properties
(src/src/gprs.c:1786-1831): Bearer appears only while a bearer is known and
Suspended only while attached. -/
def gprs_get_properties_keys (g : Gprs) : List String :=
  ["Attached"] ++ (if g.bearer ≠ -1 then ["Bearer"] else []) ++
  ["RoamingAllowed", "Powered"] ++ (if g.attached then ["Suspended"] else [])

/-- Replies of the Active branch of pri_set_property: alreadyDone is the
immediate successful reply when the requested value matches the current state;
driverActivate and driverDeactivate are the pending driver calls. -/
inductive ActiveReply
  | busyReply | alreadyDone | notAttachedReply | attachInProgressReply
  | notImplementedReply | driverActivate | driverDeactivate
deriving DecidableEq

/-- Translation of the "Active" branch of pri_set_property
(src/src/gprs.c:1238-1276) for a well-typed boolean request. The inputs are
the manager-level pending request, the per-context pending request, the
context's Active flag, the manager's attached flag, the ATTACHING flag, the
requested value, and whether assign_context would succeed (a free cid in range
and a matching unused driver binding). -/
def pri_set_property_active (mgrPending ctxPending ctxActive attached
    attaching value assignOk : Bool) : ActiveReply :=
  if mgrPending then .busyReply
  else if ctxPending then .busyReply
  else if ctxActive = value then .alreadyDone
  else if value && !attached then .notAttachedReply
  else if attaching then .attachInProgressReply
  else if value && !assignOk then .notImplementedReply
  else if value then .driverActivate
  else .driverDeactivate

/-! Id sets. used_pids and used_cids are l_uintset instances of the ell helper
library, which is not among the sources; the functions below model ell's
documented behaviour. An l_uintset holds a subset of the range lo..hi. -/

/-- Model of ell's l_uintset (the id-set collaborator library is not among the
sources): a subset of the closed range lo..hi. -/
structure UIntSet where
  lo : Nat
  hi : Nat
  used : List Nat

/-- Membership in an id set (l_uintset_contains). -/
def UIntSet.mem (s : UIntSet) (n : Nat) : Bool := s.used.contains n

/-- Linear scan for the first value at or after k that is not in the set,
giving up (with hi + 1) when the fuel runs out. -/
def findUnusedFrom (s : UIntSet) : Nat → Nat → Nat
  | _, 0 => s.hi + 1
  | k, fuel + 1 => if s.mem k then findUnusedFrom s (k + 1) fuel else k

/-- Model of ell's l_uintset_find_unused_min (not among the sources): the
smallest unused value in lo..hi, or hi + 1 when the set is full. -/
def l_uintset_find_unused_min (s : UIntSet) : Nat :=
  findUnusedFrom s s.lo (s.hi + 1 - s.lo)

/-- Model of ell's l_uintset_find_unused (not among the sources): the first
unused value at or after start; when all of start..hi is taken the search
restarts from the bottom of the range; an out-of-range start also falls back
to the minimum search; hi + 1 when the set is full. -/
def l_uintset_find_unused (s : UIntSet) (start : Nat) : Nat :=
  if start < s.lo || s.hi < start then l_uintset_find_unused_min s
  else
    let r := findUnusedFrom s start (s.hi + 1 - start)
    if r ≤ s.hi then r else l_uintset_find_unused_min s

/-- Insertion into an id set (l_uintset_put, range already checked by the
callers modelled here). -/
def UIntSet.put (s : UIntSet) (n : Nat) : UIntSet :=
  { s with used := n :: s.used }

/-- Removal from an id set (l_uintset_take). -/
def UIntSet.take (s : UIntSet) (n : Nat) : UIntSet :=
  { s with used := s.used.erase n }

/-- Protocols (enum ofono_gprs_proto of the public gprs header; the design's
proto set IP, IPV6, IPV4V6). -/
inductive GprsProto
  | ip | ipv6 | ipv4v6

/-- Authentication methods (enum ofono_gprs_auth_method; the design's set CHAP,
PAP, NONE, with CHAP the zero-initialised default). -/
inductive AuthMethod
  | chap | pap | noAuth

/-- Modelled from the spec: protocol strings. gprs_proto_to_string and
gprs_proto_from_string live in src/common.c, which is not among the sources;
the design fixes the Protocol default "ip" and the proto set, and the two maps
are mutually inverse names for the three protocols. -/
def gprs_proto_to_string : GprsProto → String
  | .ip => "ip"
  | .ipv6 => "ipv6"
  | .ipv4v6 => "dual"

/-- Modelled from the spec: inverse of the protocol string map (see
gprs_proto_to_string). -/
def gprs_proto_from_string (s : String) : Option GprsProto :=
  if s = "ip" then some .ip
  else if s = "ipv6" then some .ipv6
  else if s = "dual" then some .ipv4v6
  else none

/-- Modelled from the spec: authentication-method strings.
gprs_auth_method_to_string and gprs_auth_method_from_string live in
src/common.c, which is not among the sources; the design fixes the
AuthenticationMethod default "chap" and the set CHAP, PAP, NONE. -/
def gprs_auth_method_to_string : AuthMethod → String
  | .chap => "chap"
  | .pap => "pap"
  | .noAuth => "none"

/-- Modelled from the spec: inverse of the authentication-method string map
(see gprs_auth_method_to_string). -/
def gprs_auth_method_from_string (s : String) : Option AuthMethod :=
  if s = "chap" then some .chap
  else if s = "pap" then some .pap
  else if s = "none" then some .noAuth
  else none

/-- Helper for dotted-label checks: no two adjacent dots in the character
list. -/
def noDoubleDot : List Char → Bool
  | [] => true
  | [_] => true
  | a :: b :: rest => !(a = '.' && b = '.') && noDoubleDot (b :: rest)

/-- Modelled from the spec: APN validation. is_valid_apn lives in
src/common.c, which is not among the sources; the design states "APN
validated: printable, length-bounded, conforms to the standard APN character
class". Modelled as: nonempty, alphanumeric plus hyphen and dot, no leading
dot and no empty label. -/
def is_valid_apn (apn : String) : Bool :=
  apn.length ≠ 0 && apn.front ≠ '.' &&
  apn.toList.all (fun c => c.isAlphanum || c = '-' || c = '.') &&
  noDoubleDot apn.toList

/-- Bound on reported APNs (OFONO_GPRS_MAX_APN_LENGTH of the public header;
the design bounds apn at 100 characters). -/
def OFONO_GPRS_MAX_APN_LENGTH : Nat := 100

/-- Primary context record (struct pri_context with its embedded
ofono_gprs_primary_context, src/src/gprs.c:109-124), restricted to the fields
the modelled operations touch. boundDriver is the index of the bound driver
binding in the manager's binding list. -/
structure PriCtx where
  id : Nat
  name : String
  ctype : CtxType
  apn : String
  username : String
  password : String
  authMethod : AuthMethod
  proto : GprsProto
  messageProxy : String
  messageCenter : String
  active : Bool
  cid : Nat
  boundDriver : Option Nat

/-- Translation of pri_context_create (src/src/gprs.c:1371-1393): a zeroed
context carrying the given name, or the type's default name when none is
given; fails when neither exists. -/
def pri_context_create (name : Option String) (t : CtxType) : Option PriCtx :=
  match name.orElse (fun _ => gprs_context_default_name t) with
  | none => none
  | some n =>
    some { id := 0, name := n, ctype := t, apn := "", username := ""
         , password := "", authMethod := .chap, proto := .ip
         , messageProxy := "", messageCenter := "", active := false
         , cid := 0, boundDriver := none }

/-- Context-driver binding (struct ofono_gprs_context,
src/src/gprs.c:98-107), restricted to the capability flags
find_avail_gprs_context and ofono_gprs_cid_activated test. -/
structure GcBinding where
  inuse : Bool
  hasDriver : Bool
  hasActivate : Bool
  hasDeactivate : Bool
  hasReadSettings : Bool
  ctype : CtxType

/-- Manager state slice for context bookkeeping: the atom registration flag,
the two id sets, the last allocated path id, the context list and the driver
binding list (struct ofono_gprs, src/src/gprs.c:49-75). -/
structure CtxMgr where
  registered : Bool
  usedPids : UIntSet
  usedCids : UIntSet
  lastContextId : Nat
  contexts : List PriCtx
  drivers : List GcBinding

/-- Translation of find_avail_gprs_context (src/src/gprs.c:221-247): the first
binding that is free, has a driver with both activate_primary and
deactivate_primary, and matches the context type (or is typed ANY). -/
def find_avail_gprs_context (drivers : List GcBinding) (t : CtxType) :
    Option Nat :=
  drivers.findIdx? (fun gc =>
    !gc.inuse && gc.hasDriver && gc.hasActivate && gc.hasDeactivate &&
      (gc.ctype == CtxType.any || gc.ctype == t))

/-- Translation of assign_context (src/src/gprs.c:249-282): the cid is the
given one, or the minimum unused cid when 0; fails beyond the range or without
an available binding; on success the cid is taken, the binding marked in use
and the context bound. The IP settings pre-allocation is not modelled. -/
def assign_context (m : CtxMgr) (i : Nat) (useCid : Nat) : Option CtxMgr :=
  match m.contexts[i]? with
  | none => none
  | some ctx =>
    let cid := if useCid = 0 then l_uintset_find_unused_min m.usedCids
               else useCid
    if m.usedCids.hi < cid then none
    else
      match find_avail_gprs_context m.drivers ctx.ctype with
      | none => none
      | some gi =>
        match m.drivers[gi]? with
        | none => none
        | some gc =>
          some { m with
            usedCids := m.usedCids.put cid
            , contexts := m.contexts.set i
                { ctx with cid := cid, boundDriver := some gi }
            , drivers := m.drivers.set gi { gc with inuse := true } }

/-- Translation of release_context (src/src/gprs.c:284-294): the cid is
returned to the set, the context unbound and deactivated, the binding freed. -/
def release_context (m : CtxMgr) (i : Nat) : CtxMgr :=
  match m.contexts[i]? with
  | none => m
  | some ctx =>
    match ctx.boundDriver with
    | none => m
    | some gi =>
      { m with
        usedCids := m.usedCids.take ctx.cid
        , contexts := m.contexts.set i
            { ctx with cid := 0, boundDriver := none, active := false }
        , drivers := match m.drivers[gi]? with
            | none => m.drivers
            | some gc => m.drivers.set gi { gc with inuse := false } }

/-- Translation of add_context (src/src/gprs.c:1976-2018): the path id is the
first unused pid at or after last_context_id when one was ever allocated, else
the minimum unused pid; fails beyond the range or when no name is derivable.
The D-Bus registration and the settings write are not modelled (registration
is assumed to succeed). Returns the new state and the new context's position. -/
def add_context (m : CtxMgr) (name : Option String) (t : CtxType) :
    Option (CtxMgr × Nat) :=
  let id := if m.lastContextId ≠ 0 then
              l_uintset_find_unused m.usedPids m.lastContextId
            else l_uintset_find_unused_min m.usedPids
  if m.usedPids.hi < id then none
  else
    match pri_context_create name t with
    | none => none
    | some ctx =>
      some ({ m with
        usedPids := m.usedPids.put id
        , lastContextId := id
        , contexts := m.contexts ++ [{ ctx with id := id }] },
        m.contexts.length)

/-- Translation of find_usable_context (src/src/gprs.c:1947-1974): the first
context whose configured APN is a prefix of the reported APN, else the first
context with an empty APN. -/
def find_usable_context (contexts : List PriCtx) (apn : String) : Option Nat :=
  match contexts.findIdx? (fun c => c.apn.isPrefixOf apn) with
  | some i => some i
  | none => contexts.findIdx? (fun c => c.apn == "")

/-- Outcomes of ofono_gprs_cid_activated: the early returns, binding failure,
the release taken when the bound driver lacks read_settings, and the
read_settings call carrying the context position. -/
inductive CidActOutcome
  | ignoredUnregistered | ignoredActiveCid | ignoredInvalidApn
  | noUsableContext | assignFailed
  | releasedNoReadSettings (i : Nat)
  | readSettingsIssued (i : Nat)

/-- The context-selection step of ofono_gprs_cid_activated
(src/src/gprs.c:2044-2054): a usable existing context, else a freshly added
internet context named after the reported APN. -/
def cid_select_context (m : CtxMgr) (apn : String) : Option (CtxMgr × Nat) :=
  match find_usable_context m.contexts apn with
  | some i => some (m, i)
  | none => add_context m (some apn) .internet

/-- Translation of ofono_gprs_cid_activated (src/src/gprs.c:2020-2086): ignore
reports before registration, for an already-used cid or with an invalid APN;
match a usable context or create a fresh internet one named after the APN;
bind it to the reported cid; release it when the bound driver cannot read
settings; otherwise fill in an empty APN and issue read_settings. -/
def ofono_gprs_cid_activated (m : CtxMgr) (cid : Nat) (apn : String) :
    CtxMgr × CidActOutcome :=
  if !m.registered then (m, .ignoredUnregistered)
  else if m.usedCids.mem cid then (m, .ignoredActiveCid)
  else if OFONO_GPRS_MAX_APN_LENGTH < apn.length || !is_valid_apn apn then
    (m, .ignoredInvalidApn)
  else
    match cid_select_context m apn with
    | none => (m, .noUsableContext)
    | some (m1, i) =>
      match assign_context m1 i cid with
      | none => (m1, .assignFailed)
      | some m2 =>
        match (m2.contexts[i]?).bind (fun c => c.boundDriver) with
        | none => (m2, .assignFailed)
        | some gi =>
          if !(((m2.drivers[gi]?).map (fun gc => gc.hasReadSettings)).getD false)
          then (release_context m2 i, .releasedNoReadSettings i)
          else
            let m3 := match m2.contexts[i]? with
              | some ctx =>
                if ctx.apn == "" then
                  { m2 with contexts := m2.contexts.set i { ctx with apn := apn } }
                else m2
              | none => m2
            (m3, .readSettingsIssued i)

/-- Provisioning template (struct provision_db_entry as consumed by
provision_context, src/src/gprs.c:2376-2463). -/
structure ProvisionEntry where
  name : Option String
  apn : String
  typeBitmask : Nat
  proto : GprsProto
  username : Option String
  password : Option String
  authMethod : AuthMethod
  messageProxy : Option String
  messageCenter : Option String

/-- The lowest set bit of a bitmask, as a power of two (the
1 << (ffs(type) - 1) computation of provision_context, for up to 32 bits). -/
def lowestSetBit (n : Nat) : Nat :=
  match (List.range 33).find? (fun b => n.testBit b) with
  | some b => 2 ^ b
  | none => 0

/-- The context type encoded by a single bit of a provisioning type bitmask
(enum ofono_gprs_context_type bit values, in the declaration order of the
design's type list). -/
def ctxTypeOfBit (b : Nat) : Option CtxType :=
  if b = 1 then some .internet
  else if b = 2 then some .mms
  else if b = 4 then some .wap
  else if b = 8 then some .ims
  else if b = 16 then some .supl
  else if b = 32 then some .ia
  else none

/-- Translation of provision_context (src/src/gprs.c:2376-2463): length and
APN validation, the same path-id allocation as add_context, lowest-set-bit
type selection, and population of the new context from the template. The
D-Bus registration and settings write are not modelled (registration assumed
to succeed). Returns the new state and the new context's position. -/
def provision_context (m : CtxMgr) (ap : ProvisionEntry) :
    Option (CtxMgr × Nat) :=
  if 127 < ((ap.name.map String.length).getD 0) then none
  else if !is_valid_apn ap.apn then none
  else if 63 < ((ap.username.map String.length).getD 0) then none
  else if 63 < ((ap.password.map String.length).getD 0) then none
  else if 255 < ((ap.messageProxy.map String.length).getD 0) then none
  else if 255 < ((ap.messageCenter.map String.length).getD 0) then none
  else
    let id := if m.lastContextId ≠ 0 then
                l_uintset_find_unused m.usedPids m.lastContextId
              else l_uintset_find_unused_min m.usedPids
    if m.usedPids.hi < id then none
    else
      match ctxTypeOfBit (lowestSetBit ap.typeBitmask) with
      | none => none
      | some t =>
        match pri_context_create ap.name t with
        | none => none
        | some ctx =>
          let filled := { ctx with
            id := id
            , apn := ap.apn
            , username := ap.username.getD ""
            , password := ap.password.getD ""
            , authMethod := ap.authMethod
            , proto := ap.proto
            , messageProxy :=
                if t == CtxType.mms then ap.messageProxy.getD "" else ""
            , messageCenter :=
                if t == CtxType.mms then ap.messageCenter.getD "" else "" }
          some ({ m with
            usedPids := m.usedPids.put id
            , lastContextId := id
            , contexts := m.contexts ++ [filled] },
            m.contexts.length)

/-! Settings persistence: write_context_settings / load_context. -/

/-- Lookup in a key-file group, modelled as an association list
(g_key_file_get_string returning NULL for a missing key). -/
def kvGet : List (String × String) → String → Option String
  | [], _ => none
  | (k, v) :: rest, key => if k == key then some v else kvGet rest key

/-- Translation of write_context_settings (src/src/gprs.c:1914-1945) as the
key/value group it stores. The type string map is total on the types a primary
context can carry (never ANY). -/
def write_context_settings (ctx : PriCtx) : List (String × String) :=
  [("Name", ctx.name), ("AccessPointName", ctx.apn),
   ("Username", ctx.username), ("Password", ctx.password),
   ("AuthenticationMethod", gprs_auth_method_to_string ctx.authMethod),
   ("Type", (gprs_context_type_to_string ctx.ctype).getD ""),
   ("Protocol", gprs_proto_to_string ctx.proto)] ++
  (if ctx.ctype == CtxType.mms then
    [("MessageProxy", ctx.messageProxy), ("MessageCenter", ctx.messageCenter)]
   else [])

/-- Context data recovered by load_context. -/
structure LoadedContext where
  id : Nat
  name : String
  ctype : CtxType
  proto : GprsProto
  username : String
  password : String
  authMethod : AuthMethod
  apn : String
  messageProxy : String
  messageCenter : String

/-- Translation of load_context (src/src/gprs.c:3117-3252) for a group named
context followed by the decimal id (the sscanf of the group name and the
legacy-group migration are not modelled; the D-Bus registration is assumed to
succeed). Returns none when the group is invalid, in which case the caller
removes the group from the store. -/
def load_context (id : Nat) (kv : List (String × String)) :
    Option LoadedContext :=
  if id < 1 || 256 < id then none
  else match kvGet kv "Name" with
  | none => none
  | some name =>
    match kvGet kv "Type" with
    | none => none
    | some typestr =>
      match gprs_context_string_to_type typestr with
      | none => none
      | some ctype =>
        match gprs_proto_from_string ((kvGet kv "Protocol").getD "ip") with
        | none => none
        | some proto =>
          match kvGet kv "Username" with
          | none => none
          | some username =>
            if 63 < username.length then none
            else match kvGet kv "Password" with
            | none => none
            | some password =>
              match gprs_auth_method_from_string
                  ((kvGet kv "AuthenticationMethod").getD "chap") with
              | none => none
              | some auth =>
                if 63 < password.length then none
                else match kvGet kv "AccessPointName" with
                | none => none
                | some apn =>
                  let msgproxy := if ctype == CtxType.mms then
                      kvGet kv "MessageProxy" else none
                  let msgcenter := if ctype == CtxType.mms then
                      kvGet kv "MessageCenter" else none
                  if apn != "" && !is_valid_apn apn then none
                  else
                    some { id := id, name := name, ctype := ctype
                         , proto := proto, username := username
                         , password := password, authMethod := auth
                         , apn := apn
                         , messageProxy := msgproxy.getD ""
                         , messageCenter := msgcenter.getD "" }

/-- The desired attach state exactly as the design phrases it: want = powered
AND (netreg_status in registered or sms-eutran, OR (roaming_allowed AND
netreg_status in roaming or roaming-sms-eutran)). Stated from the spec, to be
compared against the computation inside gprs_netreg_update. -/
def spec_want_attach (g : Gprs) : Bool :=
  g.powered &&
    (decide (g.netregStatus = NETREG_REGISTERED ∨
       g.netregStatus = NETREG_REGISTERED_SMS_EUTRAN) ||
     (g.roamingAllowed &&
       decide (g.netregStatus = NETREG_ROAMING ∨
         g.netregStatus = NETREG_ROAMING_SMS_EUTRAN)))

/-- A manager state in which path ids 2 and 3 are in use, id 1 is free again
and the last allocated path id was 3 (as after creating contexts 1, 2, 3 and
removing context 1). -/
def pidDemoMgr : CtxMgr :=
  { registered := true
  , usedPids := { lo := 1, hi := 256, used := [2, 3] }
  , usedCids := { lo := 1, hi := 255, used := [] }
  , lastContextId := 3
  , contexts := []
  , drivers := [] }

/-- An IA-typed context whose remaining fields satisfy every length and
character-class bound. -/
def iaCtx : PriCtx :=
  { id := 1, name := "Initial Attach", ctype := .ia, apn := "internet"
  , username := "", password := "", authMethod := .chap, proto := .ip
  , messageProxy := "", messageCenter := "", active := false, cid := 0
  , boundDriver := none }

/-- An empty manager with a single free ANY-typed driver binding capable of
activate, deactivate and read_settings. -/
def cidDemoMgr : CtxMgr :=
  { registered := true
  , usedPids := { lo := 1, hi := 256, used := [] }
  , usedCids := { lo := 1, hi := 255, used := [] }
  , lastContextId := 0
  , contexts := []
  , drivers := [{ inuse := false, hasDriver := true, hasActivate := true
                , hasDeactivate := true, hasReadSettings := true
                , ctype := .any }] }

/-- A registered manager state for the attach witness: powered, home
registered, everything else at its initial value. -/
def attachDemo : Gprs :=
  { gprsInit with powered := true, netregStatus := NETREG_REGISTERED }

/-- An internet context whose fields satisfy every bound, for the settings
round-trip witness. -/
def rtCtx : PriCtx :=
  { id := 2, name := "Internet", ctype := .internet, apn := "web.provider.com"
  , username := "user", password := "pass", authMethod := .pap, proto := .ipv4v6
  , messageProxy := "", messageCenter := "", active := false, cid := 0
  , boundDriver := none }

/-- A manager with one inactive internet context, one free ANY binding, and
cids 1 and 2 already in use, for the cid-allocation witness. -/
def assignDemoMgr : CtxMgr :=
  { cidDemoMgr with
      contexts := [rtCtx]
    , usedCids := { lo := 1, hi := 255, used := [1, 2] } }

/-- The manager state after binding the demo context to the minimum unused
cid. -/
def assignDemoRes : CtxMgr :=
  (assign_context assignDemoMgr 0 0).getD assignDemoMgr

/-- A registered manager whose modem reported the cid range 1..3 and which has
no driver bindings, so an auto-activation report for cid 10 can bind nothing. -/
def cidRangeDemoMgr : CtxMgr :=
  { registered := true
  , usedPids := { lo := 1, hi := 256, used := [] }
  , usedCids := { lo := 1, hi := 3, used := [] }
  , lastContextId := 0
  , contexts := []
  , drivers := [] }

/-- The selection step of the auto-activation witness: the fresh internet
context created for the reported APN "ims". -/
def cidDemoSel : CtxMgr × Nat :=
  (cid_select_context cidDemoMgr "ims").getD (cidDemoMgr, 0)

/-- The manager state of the auto-activation witness after binding the fresh
context to the reported cid 5. -/
def cidDemoAssigned : CtxMgr :=
  (assign_context cidDemoSel.1 cidDemoSel.2 5).getD cidDemoMgr

/-- The driver binding of the auto-activation witness after it was marked in
use. -/
def cidDemoGc : GcBinding :=
  { inuse := true, hasDriver := true, hasActivate := true
  , hasDeactivate := true, hasReadSettings := true, ctype := .any }

end Ofono

namespace Ofono

/-! Theorems. -/

/-- C10: parsing a context-type string is a left inverse of printing exactly
for internet, mms, wap, ims and supl; the string "ia" printed for the IA type
is not accepted back, AddContext("ia") is rejected with invalid-format, and no
string at all parses to the IA type, so no IA-typed context can be created
over the bus. -/
theorem c10_type_string_left_inverse :
    ((gprs_context_type_to_string .internet).bind gprs_context_string_to_type
        = some .internet) ∧
    ((gprs_context_type_to_string .mms).bind gprs_context_string_to_type
        = some .mms) ∧
    ((gprs_context_type_to_string .wap).bind gprs_context_string_to_type
        = some .wap) ∧
    ((gprs_context_type_to_string .ims).bind gprs_context_string_to_type
        = some .ims) ∧
    ((gprs_context_type_to_string .supl).bind gprs_context_string_to_type
        = some .supl) ∧
    (gprs_context_type_to_string .ia = some "ia") ∧
    (gprs_context_string_to_type "ia" = none) ∧
    (gprs_add_context_parse "ia" = .error .invalidFormat) ∧
    (∀ s, gprs_context_string_to_type s ≠ some .ia) := by
  refine ⟨rfl, rfl, rfl, rfl, rfl, rfl, by decide, rfl, ?_⟩
  intro s
  unfold gprs_context_string_to_type
  split_ifs <;> simp

/-- Witness for C10: the universally quantified component applied at a
concrete string. -/
theorem c10_witness : gprs_context_string_to_type "ia" ≠ some CtxType.ia :=
  c10_type_string_left_inverse.2.2.2.2.2.2.2.2 "ia"

/-- C8 counterexample: the u-blox handler does not map every unknown input to
the none bearer; the unknown state 100 is passed through as bearer 100. -/
theorem c8_counterexample :
    ublox_ureg_to_bearer 100 = 100 ∧ (100 : Int) ≠ 0 := by decide

/-- C8 (amended): the Huawei, Telit and SIMCom translation tables are total
and map every input outside their known case lists to the none bearer (0),
and their results always lie in the bearer range 0..7; the u-blox handler
instead remaps only states 4, 5, 8 and 9 and passes every other state through
unchanged. -/
theorem c8_bearer_mappings : ∀ n : Int,
    (¬(n = 1 ∨ n = 2 ∨ n = 3 ∨ n = 4 ∨ n = 5 ∨ n = 6 ∨ n = 7 ∨ n = 9) →
      huawei_mode_to_bearer n = 0) ∧
    (¬(n = 0 ∨ n = 1 ∨ n = 2 ∨ n = 3 ∨ n = 4) → telit_psnt_to_bearer n = 0) ∧
    (¬(n = 0 ∨ n = 1 ∨ n = 2 ∨ n = 3 ∨ n = 4 ∨ n = 5 ∨ n = 6 ∨ n = 7 ∨ n = 8) →
      simcom_cnsmod_to_bearer n = 0) ∧
    (0 ≤ huawei_mode_to_bearer n ∧ huawei_mode_to_bearer n ≤ 7) ∧
    (0 ≤ telit_psnt_to_bearer n ∧ telit_psnt_to_bearer n ≤ 7) ∧
    (0 ≤ simcom_cnsmod_to_bearer n ∧ simcom_cnsmod_to_bearer n ≤ 7) ∧
    (¬(n = 4 ∨ n = 5 ∨ n = 8 ∨ n = 9) → ublox_ureg_to_bearer n = n) := by
  intro n
  unfold huawei_mode_to_bearer telit_psnt_to_bearer simcom_cnsmod_to_bearer
    ublox_ureg_to_bearer
  refine ⟨?_, ?_, ?_, ?_, ?_, ?_, ?_⟩ <;> split_ifs <;> omega

/-- Witness for C8: the amended mapping facts applied at the concrete unknown
input 42. -/
theorem c8_witness :
    huawei_mode_to_bearer 42 = 0 ∧ telit_psnt_to_bearer 42 = 0 ∧
    simcom_cnsmod_to_bearer 42 = 0 ∧ ublox_ureg_to_bearer 42 = 42 :=
  ⟨(c8_bearer_mappings 42).1 (by decide),
   (c8_bearer_mappings 42).2.1 (by decide),
   (c8_bearer_mappings 42).2.2.1 (by decide),
   (c8_bearer_mappings 42).2.2.2.2.2.2 (by decide)⟩

/-- C9: evaluation of the vendor suspend handler at the failing input. When
the status field of +XDATASTAT cannot be read, the handler still branches on
the unread variable: with a residual value 0 it notifies a suspend, and with a
residual value 1 a resume, instead of making no state change; only a read
value reliably selects the branch. -/
theorem c9_xdatastat_unread_branch :
    xdatastat_notify true none 0 = [.suspendNotify .unknownCause] ∧
    xdatastat_notify true none 1 = [.resumeNotify] ∧
    xdatastat_notify true none 0 ≠ [] ∧
    xdatastat_notify true (some 0) 7 = [.suspendNotify .unknownCause] ∧
    xdatastat_notify true (some 1) 7 = [.resumeNotify] ∧
    xdatastat_notify true (some 7) 0 = [] :=
  ⟨rfl, rfl, by simp [xdatastat_notify], rfl, rfl, rfl⟩

/-- C2 counterexample: with no pending request, the context inactive, the
ATTACHING flag set and a request for Active := false, the code replies with
immediate success (the value equals the current state), while the claim as
stated rejects with attach-in-progress whenever ATTACHING is set. -/
theorem c2_counterexample :
    pri_set_property_active false false false false true false true
        = .alreadyDone ∧
    ActiveReply.alreadyDone ≠ ActiveReply.attachInProgressReply := by decide

/-- C2 (amended): the precedence of the Active branch of pri_set_property is:
busy when the manager or the context has a pending request; then immediate
success when the requested value equals the current state (without any driver
call); then not-attached when activating while detached; then
attach-in-progress when ATTACHING is set. -/
theorem c2_active_precedence :
    ∀ (mgrPending ctxPending ctxActive attached attaching value assignOk : Bool),
    ((mgrPending || ctxPending) = true →
      pri_set_property_active mgrPending ctxPending ctxActive attached
        attaching value assignOk = .busyReply) ∧
    (mgrPending = false → ctxPending = false → ctxActive = value →
      pri_set_property_active mgrPending ctxPending ctxActive attached
        attaching value assignOk = .alreadyDone) ∧
    (mgrPending = false → ctxPending = false → ctxActive ≠ value →
      value = true → attached = false →
      pri_set_property_active mgrPending ctxPending ctxActive attached
        attaching value assignOk = .notAttachedReply) ∧
    (mgrPending = false → ctxPending = false → ctxActive ≠ value →
      ¬(value = true ∧ attached = false) → attaching = true →
      pri_set_property_active mgrPending ctxPending ctxActive attached
        attaching value assignOk = .attachInProgressReply) := by
  intro a b c d e f g
  cases a <;> cases b <;> cases c <;> cases d <;> cases e <;> cases f <;>
    cases g <;> simp [pri_set_property_active]

/-- Witness for C2: the amended precedence applied at concrete inputs, one per
case. -/
theorem c2_witness :
    pri_set_property_active true false false true false true true
        = .busyReply ∧
    pri_set_property_active false false true true false true true
        = .alreadyDone ∧
    pri_set_property_active false false false false false true true
        = .notAttachedReply ∧
    pri_set_property_active false false true true true false true
        = .attachInProgressReply :=
  ⟨(c2_active_precedence true false false true false true true).1 (by decide),
   (c2_active_precedence false false true true false true true).2.1
     rfl rfl rfl,
   (c2_active_precedence false false false false false true true).2.2.1
     rfl rfl (by decide) rfl rfl,
   (c2_active_precedence false false true true true false true).2.2.2
     rfl rfl (by decide) (by decide) rfl⟩

/-- C6 counterexample: two consecutive spurious detaches (unsolicited status 0
while attached) on a Telit modem. The first issues the single silent re-attach
and sets the latch; the second issues no re-attach but is not ignored: it
clears the latch and forwards status 0 to the core. -/
theorem c6_counterexample :
    (cgreg_notify { vendorTelit := true, attached := true
                  , telitTryReattach := false } 0
       = ({ vendorTelit := true, attached := true, telitTryReattach := true },
          [.sendCmd "AT+CGATT=1"])) ∧
    (cgreg_notify { vendorTelit := true, attached := true
                  , telitTryReattach := true } 0
       = ({ vendorTelit := true, attached := true, telitTryReattach := false },
          [.statusNotify 0])) ∧
    [DialectAct.statusNotify 0] ≠ ([] : List DialectAct) :=
  ⟨rfl, rfl, by simp⟩

/-- C6 (amended): on a Telit modem, a spurious detach (status 0 while attached,
latch clear) issues exactly one silent re-attach command and forwards nothing;
while the latch is set the NW/ME DETACH packet event is swallowed; a second
status 0 while the latch is set issues no further re-attach but clears the
latch and is forwarded to the core as a normal status notification; the
delayed re-register likewise clears the latch and is forwarded. -/
theorem c6_telit_spurious_detach (gd : AtGprsData)
    (hv : gd.vendorTelit = true) (ha : gd.attached = true)
    (hl : gd.telitTryReattach = false) :
    (cgreg_notify gd 0
       = ({ gd with telitTryReattach := true }, [.sendCmd "AT+CGATT=1"])) ∧
    (cgev_notify_detach { gd with telitTryReattach := true }
       = ({ gd with telitTryReattach := true }, [])) ∧
    (cgreg_notify { gd with telitTryReattach := true } 0
       = ({ gd with telitTryReattach := false }, [.statusNotify 0])) ∧
    (cgreg_notify { gd with telitTryReattach := true } 1
       = ({ gd with telitTryReattach := false }, [.statusNotify 1])) := by
  obtain ⟨v, a, t⟩ := gd
  simp only at hv ha hl
  subst hv ha hl
  refine ⟨?_, ?_, ?_, ?_⟩ <;> simp [cgreg_notify, cgev_notify_detach]

/-- Witness for C6: the amended statement applied at the concrete start state. -/
theorem c6_witness :
    cgreg_notify { vendorTelit := true, attached := true
                 , telitTryReattach := false } 0
      = ({ vendorTelit := true, attached := true, telitTryReattach := true },
         [.sendCmd "AT+CGATT=1"]) :=
  (c6_telit_spurious_detach
    { vendorTelit := true, attached := true, telitTryReattach := false }
    rfl rfl rfl).1

/-- C3 counterexample: from the freshly created manager state (attached is
false), a suspend notification with the definite cause "detached" leaves the
manager with the suspended flag set while attached is still false, violating
the claimed invariant suspended implies attached. -/
theorem c3_counterexample :
    ((ofono_gprs_suspend_notify gprsInit .detachedCause).1.suspended = true) ∧
    ((ofono_gprs_suspend_notify gprsInit .detachedCause).1.attached = false) :=
  ⟨rfl, rfl⟩

/-- C3 (amended): the internal suspended flag may be set while detached; what
is guaranteed is external invisibility: while attached is false, no suspend
notification, debounce expiry or resume ever emits a Suspended property
change, and GetProperties does not include the Suspended key. -/
theorem c3_suspended_hidden_when_detached (g : Gprs) (cause : SuspendCause)
    (h : g.attached = false) :
    (MgrAct.propertyChanged "Suspended")
        ∉ (ofono_gprs_suspend_notify g cause).2 ∧
    (MgrAct.propertyChanged "Suspended") ∉ (suspend_timeout_fire g).2 ∧
    (MgrAct.propertyChanged "Suspended") ∉ (ofono_gprs_resume_notify g).2 ∧
    "Suspended" ∉ gprs_get_properties_keys g := by
  refine ⟨?_, ?_, ?_, ?_⟩
  · cases cause <;>
      simp only [ofono_gprs_suspend_notify, update_suspended_property] <;>
      first
        | simp
        | (split_ifs <;> simp_all)
  · simp only [suspend_timeout_fire, update_suspended_property]
    split_ifs <;> simp_all
  · simp only [ofono_gprs_resume_notify, update_suspended_property]
    split_ifs <;> simp_all
  · simp only [gprs_get_properties_keys, h]
    split_ifs <;> simp_all

/-- Witness for C3: the amended statement applied at the initial state and the
detached cause. -/
theorem c3_witness :
    gprsInit.attached = false ∧
    (MgrAct.propertyChanged "Suspended")
        ∉ (ofono_gprs_suspend_notify gprsInit .detachedCause).2 :=
  ⟨rfl, (c3_suspended_hidden_when_detached gprsInit .detachedCause rfl).1⟩

/-- Helper: the attach value computed inside gprs_netreg_update coincides with
the design's want formula. -/
theorem netreg_want_eq (g : Gprs) :
    (((decide (g.netregStatus = NETREG_REGISTERED) ||
        decide (g.netregStatus = NETREG_REGISTERED_SMS_EUTRAN)) ||
      (g.roamingAllowed && (decide (g.netregStatus = NETREG_ROAMING) ||
        decide (g.netregStatus = NETREG_ROAMING_SMS_EUTRAN)))) && g.powered)
      = spec_want_attach g := by
  simp only [spec_want_attach, Bool.decide_or]
  exact Bool.and_comm _ _

/-- Helper: closed form of gprs_netreg_update off the LTE path with a known
netreg status. -/
theorem netreg_update_closed_form (g : Gprs)
    (hknown : 0 ≤ g.netregStatus) (hlte : on_lte g = false) :
    gprs_netreg_update g =
      (if g.driverAttached = spec_want_attach g then (g, [])
       else if g.attaching then ({ g with recheck := true }, [])
       else ({ g with attaching := true, driverAttached := spec_want_attach g },
             [MgrAct.setAttachedReq (spec_want_attach g)])) := by
  have hne : ¬(g.netregStatus < 0) := by omega
  simp only [gprs_netreg_update, hne, hlte, Bool.false_eq_true, if_false,
    ite_false]
  simp only [netreg_want_eq g]

/-- C1: for a manager with a known (non-negative) circuit-domain registration
status and off the LTE auto-context path, gprs_netreg_update computes the
desired attach state exactly as the design's want formula (spec_want_attach);
when want equals driver_attached the state is left unchanged and no driver
call made; when ATTACHING is set only RECHECK is raised and no driver call
made; otherwise ATTACHING is set, driver_attached becomes want, and exactly
one set_attached(want) call is issued; and when the attach callback
(registration_status_cb) finds RECHECK raised after its status handling, it
clears RECHECK and re-enters gprs_netreg_update. -/
theorem c1_netreg_update (g : Gprs) (ok : Bool) (status : Int)
    (hknown : 0 ≤ g.netregStatus) (hlte : on_lte g = false) :
    (spec_want_attach g = g.driverAttached → gprs_netreg_update g = (g, [])) ∧
    (spec_want_attach g ≠ g.driverAttached → g.attaching = true →
      gprs_netreg_update g = ({ g with recheck := true }, [])) ∧
    (spec_want_attach g ≠ g.driverAttached → g.attaching = false →
      gprs_netreg_update g =
        ({ g with attaching := true, driverAttached := spec_want_attach g },
         [MgrAct.setAttachedReq (spec_want_attach g)])) ∧
    ((registration_status_cb_mid g ok status).1.recheck = true →
      registration_status_cb g ok status =
        ((gprs_netreg_update
            { (registration_status_cb_mid g ok status).1 with recheck := false }).1,
         (registration_status_cb_mid g ok status).2 ++
           (gprs_netreg_update
             { (registration_status_cb_mid g ok status).1 with recheck := false }).2)) := by
  refine ⟨?_, ?_, ?_, ?_⟩
  · intro hw
    rw [netreg_update_closed_form g hknown hlte, if_pos hw.symm]
  · intro hw ha
    rw [netreg_update_closed_form g hknown hlte,
      if_neg (fun hh => hw hh.symm), if_pos ha]
  · intro hw ha
    rw [netreg_update_closed_form g hknown hlte,
      if_neg (fun hh => hw hh.symm), if_neg (by simp [ha])]
  · intro hr
    simp only [registration_status_cb, hr, if_true]

/-- C5 counterexample: an IA-typed context whose remaining fields satisfy
every stated bound does not round-trip: write_context_settings stores
Type "ia", which load_context rejects, so loading the stored group fails (the
caller removes the group) instead of returning an identical context. -/
theorem c5_counterexample :
    load_context 1 (write_context_settings iaCtx) = none ∧
    iaCtx.name.length ≤ 127 ∧ iaCtx.username.length ≤ 63 ∧
    iaCtx.password.length ≤ 63 ∧ is_valid_apn iaCtx.apn = true := by
  refine ⟨rfl, by decide, by decide, by decide, by decide⟩

/-- Helper: the protocol string map round-trips. -/
theorem proto_string_roundtrip (p : GprsProto) :
    gprs_proto_from_string (gprs_proto_to_string p) = some p := by
  cases p <;> rfl

/-- Helper: the authentication-method string map round-trips. -/
theorem auth_string_roundtrip (a : AuthMethod) :
    gprs_auth_method_from_string (gprs_auth_method_to_string a) = some a := by
  cases a <;> rfl

/-- C5 (amended): for every context of one of the five loadable types
(internet, mms, wap, ims, supl) whose fields satisfy the stated length and
character-class bounds, loading the stored group written by
write_context_settings yields exactly the context's Name, Type, Protocol,
AccessPointName, Username, Password and AuthenticationMethod, and for MMS
contexts also MessageProxy and MessageCenter; IA-typed contexts are excluded,
since the loader does not accept the stored type string "ia". -/
theorem c5_roundtrip (ctx : PriCtx) (id : Nat)
    (hid1 : 1 ≤ id) (hid2 : id ≤ 256)
    (htype : ctx.ctype = .internet ∨ ctx.ctype = .mms ∨ ctx.ctype = .wap ∨
      ctx.ctype = .ims ∨ ctx.ctype = .supl)
    (hname : ctx.name.length ≤ 127)
    (huser : ctx.username.length ≤ 63)
    (hpass : ctx.password.length ≤ 63)
    (happn : ctx.apn = "" ∨ is_valid_apn ctx.apn = true) :
    load_context id (write_context_settings ctx) = some
      { id := id, name := ctx.name, ctype := ctx.ctype, proto := ctx.proto
      , username := ctx.username, password := ctx.password
      , authMethod := ctx.authMethod, apn := ctx.apn
      , messageProxy := if ctx.ctype = .mms then ctx.messageProxy else ""
      , messageCenter := if ctx.ctype = .mms then ctx.messageCenter else "" } := by
  have hapn2 : (ctx.apn != "" && !is_valid_apn ctx.apn) = false := by
    rcases happn with h | h <;> simp [h]
  have hidge : ¬(id < 1) := by omega
  have hidle : ¬(256 < id) := by omega
  rcases htype with h | h | h | h | h <;>
    simp [load_context, write_context_settings, kvGet, h, hapn2,
      hidge, hidle, Nat.not_lt.mpr huser, Nat.not_lt.mpr hpass,
      gprs_context_string_to_type, gprs_context_type_to_string,
      proto_string_roundtrip, auth_string_roundtrip]

/-- Witness for C5: the amended round-trip applied at a concrete internet
context. -/
theorem c5_witness :
    (1 ≤ 2 ∧ 2 ≤ 256 ∧ rtCtx.ctype = CtxType.internet ∧
      rtCtx.name.length ≤ 127 ∧ rtCtx.username.length ≤ 63 ∧
      rtCtx.password.length ≤ 63 ∧ is_valid_apn rtCtx.apn = true) ∧
    load_context 2 (write_context_settings rtCtx) = some
      { id := 2, name := rtCtx.name, ctype := rtCtx.ctype, proto := rtCtx.proto
      , username := rtCtx.username, password := rtCtx.password
      , authMethod := rtCtx.authMethod, apn := rtCtx.apn
      , messageProxy := if rtCtx.ctype = .mms then rtCtx.messageProxy else ""
      , messageCenter := if rtCtx.ctype = .mms then rtCtx.messageCenter else "" } :=
  ⟨⟨by decide, by decide, rfl, by decide, by decide, by decide, by decide⟩,
   c5_roundtrip rtCtx 2 (by decide) (by decide) (Or.inl rfl) (by decide)
     (by decide) (by decide) (Or.inr (by decide))⟩

/-- Helper: every value from the start of the scan up to (but excluding) the
scan's result is in the set. -/
theorem findUnusedFrom_mem_below (s : UIntSet) :
    ∀ (fuel k j : Nat), k ≤ j → j < findUnusedFrom s k fuel → j < k + fuel →
      s.mem j = true := by
  intro fuel
  induction fuel with
  | zero => intro k j h1 h2 h3; omega
  | succ n ih =>
    intro k j h1 h2 h3
    by_cases hm : s.mem k
    · rcases Nat.eq_or_lt_of_le h1 with he | hl
      · exact he ▸ hm
      · have h2s : j < findUnusedFrom s (k + 1) n := by
          simpa [findUnusedFrom, hm] using h2
        exact ih (k + 1) j hl h2s (by omega)
    · have hres : findUnusedFrom s k (n + 1) = k := by
        simp [findUnusedFrom, hm]
      rw [hres] at h2
      omega

/-- Helper: the scan's result is hi + 1, or an unused value inside the fuel
window at or after the start. -/
theorem findUnusedFrom_spec (s : UIntSet) :
    ∀ (fuel k : Nat), findUnusedFrom s k fuel = s.hi + 1 ∨
      (k ≤ findUnusedFrom s k fuel ∧ findUnusedFrom s k fuel < k + fuel ∧
       s.mem (findUnusedFrom s k fuel) = false) := by
  intro fuel
  induction fuel with
  | zero => intro k; left; rfl
  | succ n ih =>
    intro k
    by_cases hm : s.mem k
    · have he : findUnusedFrom s k (n + 1) = findUnusedFrom s (k + 1) n := by
        simp [findUnusedFrom, hm]
      rcases ih (k + 1) with h | ⟨h1, h2, h3⟩
      · left; rw [he]; exact h
      · right; rw [he]; exact ⟨by omega, by omega, h3⟩
    · have he : findUnusedFrom s k (n + 1) = k := by
        simp [findUnusedFrom, hm]
      right
      rw [he]
      exact ⟨Nat.le_refl k, by omega, by simpa using hm⟩

/-- Helper: when the minimum scan stays within the range, its result is an
unused value and everything below it in the range is used. -/
theorem find_unused_min_minimal (s : UIntSet)
    (hle : l_uintset_find_unused_min s ≤ s.hi) :
    s.mem (l_uintset_find_unused_min s) = false ∧
    (∀ j, s.lo ≤ j → j < l_uintset_find_unused_min s → s.mem j = true) := by
  rcases findUnusedFrom_spec s (s.hi + 1 - s.lo) s.lo with h | ⟨h1, h2, h3⟩
  · exfalso
    have : l_uintset_find_unused_min s = s.hi + 1 := h
    omega
  · refine ⟨h3, ?_⟩
    intro j hj1 hj2
    exact findUnusedFrom_mem_below s (s.hi + 1 - s.lo) s.lo j hj1 hj2
      (by
        have : l_uintset_find_unused_min s < s.lo + (s.hi + 1 - s.lo) := h2
        omega)

/-- C7 counterexample: with path ids 2 and 3 in use, id 1 free again and the
last allocated id 3, AddContext allocates id 4 although the minimum unused id
of used_pids is 1. -/
theorem c7_counterexample :
    ((add_context pidDemoMgr (some "ctx") CtxType.internet).map
        (fun p => p.1.usedPids.used.head?)) = some (some 4) ∧
    l_uintset_find_unused_min pidDemoMgr.usedPids = 1 ∧
    pidDemoMgr.usedPids.mem 1 = false ∧ (4 : Nat) ≠ 1 := by decide

/-- C7 (amended): cid allocation (assign_context without a forced cid) always
takes the minimum unused cid — the allocated cid heads the updated set, every
smaller in-range value was already used and the allocated one was free. Path
id allocation (add_context and provision_context) instead takes the first
unused pid at or after last_context_id (wrapping past the top of the range),
falling back to the minimum unused pid only when no context was ever
allocated (last_context_id = 0). -/
theorem c7_id_allocation :
    (∀ (m : CtxMgr) (i : Nat) (m2 : CtxMgr), assign_context m i 0 = some m2 →
       m2.usedCids.used.head? = some (l_uintset_find_unused_min m.usedCids) ∧
       (∀ j, m.usedCids.lo ≤ j → j < l_uintset_find_unused_min m.usedCids →
         m.usedCids.mem j = true) ∧
       m.usedCids.mem (l_uintset_find_unused_min m.usedCids) = false) ∧
    (∀ (m : CtxMgr) (name : Option String) (t : CtxType) (m2 : CtxMgr) (i : Nat),
       add_context m name t = some (m2, i) →
       m2.usedPids.used.head? = some (if m.lastContextId ≠ 0 then
           l_uintset_find_unused m.usedPids m.lastContextId
         else l_uintset_find_unused_min m.usedPids)) ∧
    (∀ (m : CtxMgr) (ap : ProvisionEntry) (m2 : CtxMgr) (i : Nat),
       provision_context m ap = some (m2, i) →
       m2.usedPids.used.head? = some (if m.lastContextId ≠ 0 then
           l_uintset_find_unused m.usedPids m.lastContextId
         else l_uintset_find_unused_min m.usedPids)) := by
  refine ⟨?_, ?_, ?_⟩
  · intro m i m2 hassign
    unfold assign_context at hassign
    split at hassign
    next => exact Option.noConfusion hassign
    next ctx hctx =>
      simp only [reduceIte] at hassign
      split at hassign
      next hhi => exact Option.noConfusion hassign
      next hhi =>
        have hmin := find_unused_min_minimal m.usedCids (Nat.not_lt.mp hhi)
        split at hassign
        next => exact Option.noConfusion hassign
        next gi hfind =>
          split at hassign
          next => exact Option.noConfusion hassign
          next gc hgc =>
            have hm2 := Option.some.inj hassign
            refine ⟨?_, hmin.2, hmin.1⟩
            rw [← hm2]
            rfl
  · intro m name t m2 i hadd
    unfold add_context at hadd
    set idv := (if m.lastContextId ≠ 0 then
        l_uintset_find_unused m.usedPids m.lastContextId
      else l_uintset_find_unused_min m.usedPids) with hidv
    by_cases hhi : m.usedPids.hi < idv
    · rw [if_pos hhi] at hadd; exact Option.noConfusion hadd
    · rw [if_neg hhi] at hadd
      cases hcr : pri_context_create name t with
      | none => rw [hcr] at hadd; exact Option.noConfusion hadd
      | some ctx =>
        rw [hcr] at hadd
        injection hadd with h1
        injection h1 with h2 h3
        rw [← h2]
        rfl
  · intro m ap m2 i hp
    unfold provision_context at hp
    set idv := (if m.lastContextId ≠ 0 then
        l_uintset_find_unused m.usedPids m.lastContextId
      else l_uintset_find_unused_min m.usedPids) with hidv
    repeat'
      first
        | split at hp
        | simp only [] at hp
    all_goals
      first
      | exact Option.noConfusion hp
      | (injection hp with h1
         injection h1 with h2 h3
         rw [← h2]
         rfl)

/-- Witness for C7: the cid-allocation component applied at the demo manager,
where the minimum unused cid (3) is taken. -/
theorem c7_witness :
    assign_context assignDemoMgr 0 0 = some assignDemoRes ∧
    assignDemoRes.usedCids.used.head?
        = some (l_uintset_find_unused_min assignDemoMgr.usedCids) ∧
    l_uintset_find_unused_min assignDemoMgr.usedCids = 3 :=
  ⟨rfl,
   (c7_id_allocation.1 assignDemoMgr 0 assignDemoRes rfl).1,
   by decide⟩

/-- Helper: a successful find_usable_context yields a context whose APN is a
prefix of the reported one, or an empty-APN context. -/
theorem find_usable_context_spec (cs : List PriCtx) (apn : String) (i : Nat)
    (h : find_usable_context cs apn = some i) :
    ∃ c, cs[i]? = some c ∧ (c.apn.isPrefixOf apn = true ∨ c.apn = "") := by
  unfold find_usable_context at h
  cases hf : cs.findIdx? (fun c => c.apn.isPrefixOf apn) with
  | some j =>
    rw [hf] at h
    injection h with h
    subst h
    obtain ⟨hlt, hpred, -⟩ := List.findIdx?_eq_some_iff_getElem.mp hf
    exact ⟨cs[j], by simp [List.getElem?_eq_getElem hlt], Or.inl hpred⟩
  | none =>
    rw [hf] at h
    obtain ⟨hlt, hpred, -⟩ := List.findIdx?_eq_some_iff_getElem.mp h
    refine ⟨cs[i], by simp [List.getElem?_eq_getElem hlt], Or.inr ?_⟩
    simpa using hpred

/-- Helper: a successful assign_context only rewrites position i of the
context list. -/
theorem assign_context_sets (m : CtxMgr) (i useCid : Nat) (m2 : CtxMgr)
    (h : assign_context m i useCid = some m2) :
    ∃ y, m2.contexts = m.contexts.set i y := by
  unfold assign_context at h
  repeat'
    first
      | split at h
      | simp only [] at h
  all_goals
    first
    | exact Option.noConfusion h
    | (injection h with h2; exact ⟨_, by rw [← h2]⟩)

/-- C4 counterexample: a valid auto-activation report whose cid lies beyond
the modem's reported cid range binds nothing: the outcome is a failed
assignment, no read_settings call is issued, and every context in the
resulting state is unbound and inactive — the claim's unconditional "the
context is bound and read_settings(cid) is called" fails at this input. -/
theorem c4_counterexample :
    cidRangeDemoMgr.registered = true ∧
    cidRangeDemoMgr.usedCids.mem 10 = false ∧
    is_valid_apn "internet" = true ∧
    (ofono_gprs_cid_activated cidRangeDemoMgr 10 "internet").2
        = CidActOutcome.assignFailed ∧
    ((ofono_gprs_cid_activated cidRangeDemoMgr 10 "internet").1.contexts.all
        (fun c => !c.active && c.boundDriver == none)) = true := by
  refine ⟨rfl, by decide, by decide, rfl, rfl⟩

/-- C4 (amended): for an auto-activation report with a valid APN for a cid
not in used_cids, arriving after registration, and on which the selection and
binding steps succeed: the report is matched to the first existing context
whose APN is a prefix of the reported one (an empty APN matches everything),
else a fresh inactive internet-type context named after the reported APN is
appended; when the bound driver lacks read_settings the context is released
and no context becomes active (the Active flags are those of the pre-report
state with the selected position forced inactive); when the driver implements
read_settings, exactly that call is issued for the selected context and an
empty APN is replaced by the reported one. -/
theorem c4_cid_activated (m : CtxMgr) (cid : Nat) (apn : String)
    (m1 m2 : CtxMgr) (i gi : Nat) (gc : GcBinding)
    (hreg : m.registered = true)
    (hfresh : m.usedCids.mem cid = false)
    (hlen : apn.length ≤ OFONO_GPRS_MAX_APN_LENGTH)
    (hvalid : is_valid_apn apn = true)
    (hsel : cid_select_context m apn = some (m1, i))
    (hassign : assign_context m1 i cid = some m2)
    (hgi : (m2.contexts[i]?).bind (fun c => c.boundDriver) = some gi)
    (hgc : m2.drivers[gi]? = some gc) :
    ((find_usable_context m.contexts apn = some i ∧ m1 = m ∧
       ∃ c, m.contexts[i]? = some c ∧
         (c.apn.isPrefixOf apn = true ∨ c.apn = "")) ∨
     (find_usable_context m.contexts apn = none ∧ i = m.contexts.length ∧
       m1.contexts.map (fun c => c.active)
           = m.contexts.map (fun c => c.active) ++ [false] ∧
       ∃ c, m1.contexts[i]? = some c ∧ c.ctype = CtxType.internet ∧
         c.name = apn ∧ c.apn = "" ∧ c.active = false)) ∧
    (gc.hasReadSettings = false →
      ofono_gprs_cid_activated m cid apn
          = (release_context m2 i, .releasedNoReadSettings i) ∧
      (release_context m2 i).contexts.map (fun c => c.active)
          = (m1.contexts.map (fun c => c.active)).set i false) ∧
    (gc.hasReadSettings = true →
      (ofono_gprs_cid_activated m cid apn).2 = .readSettingsIssued i ∧
      (∀ c, m2.contexts[i]? = some c → c.apn = "" →
        ((ofono_gprs_cid_activated m cid apn).1.contexts[i]?).map
            (fun d => d.apn) = some apn) ∧
      (∀ c, m2.contexts[i]? = some c → c.apn ≠ "" →
        (ofono_gprs_cid_activated m cid apn).1 = m2)) := by
  cases hctx2 : m2.contexts[i]? with
  | none => rw [hctx2] at hgi; exact Option.noConfusion hgi
  | some ctx2 =>
  have hbd : ctx2.boundDriver = some gi := by
    rw [hctx2] at hgi; simpa using hgi
  have hlen2 : ¬(OFONO_GPRS_MAX_APN_LENGTH < apn.length) := Nat.not_lt.mpr hlen
  have hi2 : i < m2.contexts.length := by
    by_contra hx
    rw [List.getElem?_eq_none (Nat.le_of_not_lt hx)] at hctx2
    exact Option.noConfusion hctx2
  have heval : ofono_gprs_cid_activated m cid apn =
      (if !gc.hasReadSettings
       then (release_context m2 i, .releasedNoReadSettings i)
       else (if ctx2.apn == "" then
               { m2 with contexts := m2.contexts.set i { ctx2 with apn := apn } }
             else m2, .readSettingsIssued i)) := by
    unfold ofono_gprs_cid_activated
    simp only [hreg, hfresh, hsel, hassign, hgi, hgc, hctx2, hbd, hvalid,
      hlen2, Bool.not_true, decide_False, Bool.false_or, Bool.or_false,
      Bool.false_eq_true, if_false, Option.some_bind, Option.map_some',
      Option.getD_some]
  refine ⟨?_, ?_, ?_⟩
  · unfold cid_select_context at hsel
    cases hfu : find_usable_context m.contexts apn with
    | some j =>
      rw [hfu] at hsel
      injection hsel with hp
      injection hp with hpm hpi
      left
      subst hpi
      exact ⟨rfl, hpm.symm, find_usable_context_spec _ _ _ hfu⟩
    | none =>
      rw [hfu] at hsel
      right
      unfold add_context at hsel
      by_cases hhi : m.usedPids.hi < (if m.lastContextId ≠ 0 then
          l_uintset_find_unused m.usedPids m.lastContextId
        else l_uintset_find_unused_min m.usedPids)
      · rw [if_pos hhi] at hsel; exact Option.noConfusion hsel
      · rw [if_neg hhi] at hsel
        injection hsel with hp
        injection hp with hpm hpi
        refine ⟨rfl, hpi.symm, ?_, ?_⟩
        · rw [← hpm]
          simp
        · subst hpi
          have hfr : m1.contexts[m.contexts.length]? = some
              { id := (if m.lastContextId ≠ 0 then
                  l_uintset_find_unused m.usedPids m.lastContextId
                else l_uintset_find_unused_min m.usedPids)
              , name := apn, ctype := CtxType.internet, apn := ""
              , username := "", password := "", authMethod := .chap
              , proto := .ip, messageProxy := "", messageCenter := ""
              , active := false, cid := 0, boundDriver := none } := by
            rw [← hpm]
            exact List.getElem?_concat_length _ _
          exact ⟨_, hfr, rfl, rfl, rfl, rfl⟩
  · intro hrs
    have hrel : release_context m2 i = { m2 with
        usedCids := m2.usedCids.take ctx2.cid
      , contexts := m2.contexts.set i
          { ctx2 with cid := 0, boundDriver := none, active := false }
      , drivers := m2.drivers.set gi { gc with inuse := false } } := by
      unfold release_context
      simp only [hctx2, hbd, hgc]
    obtain ⟨y, hshape⟩ := assign_context_sets m1 i cid m2 hassign
    refine ⟨?_, ?_⟩
    · rw [heval, hrs]
      simp
    · simp only [hrel, hshape, List.set_set, List.map_set]
  · intro hrs
    refine ⟨?_, ?_, ?_⟩
    · rw [heval, hrs]
      simp
    · intro c hc hapn
      injection hc with hc
      subst hc
      rw [heval, hrs]
      simp [hapn, List.getElem?_set_self hi2]
    · intro c hc hapn
      injection hc with hc
      subst hc
      rw [heval, hrs]
      simp [hapn]

/-- Witness for C4: the amended statement applied at an empty manager with a
free read_settings-capable ANY binding and the report (cid 5, APN "ims"); the
read_settings call is issued for the freshly created context. -/
theorem c4_witness :
    (cidDemoMgr.registered = true ∧ cidDemoMgr.usedCids.mem 5 = false ∧
     "ims".length ≤ OFONO_GPRS_MAX_APN_LENGTH ∧ is_valid_apn "ims" = true) ∧
    (ofono_gprs_cid_activated cidDemoMgr 5 "ims").2
        = CidActOutcome.readSettingsIssued cidDemoSel.2 :=
  ⟨⟨rfl, by decide, by decide, by decide⟩,
   ((c4_cid_activated cidDemoMgr 5 "ims" cidDemoSel.1 cidDemoAssigned
       cidDemoSel.2 0 cidDemoGc rfl (by decide) (by decide) (by decide)
       rfl rfl rfl rfl).2.2 rfl).1⟩

/-- Witness for C1: the unchanged-to-attach transition at a powered,
home-registered manager in its initial flags. -/
theorem c1_witness :
    (0 ≤ attachDemo.netregStatus ∧ on_lte attachDemo = false) ∧
    gprs_netreg_update attachDemo =
      ({ attachDemo with
          attaching := true,
          driverAttached := spec_want_attach attachDemo },
       [MgrAct.setAttachedReq (spec_want_attach attachDemo)]) :=
  ⟨⟨by decide, rfl⟩,
   (c1_netreg_update attachDemo true 1 (by decide) rfl).2.2.1 (by decide) rfl⟩

end Ofono
